import Mathlib

/-!
Verification of the Invoice Validation & Deduplication Engine.

Shallow embedding of the repository's core logic:
* `src/src/arthimeticCheck.py` — arithmetic validator (`validate_invoice`,
  `clean_number`), modelled over exact rationals; Python's `round(x, 2)`
  (banker's rounding) is modelled by `round2`.
* `src/data_base/duplicate_utils.py` and
  `src/database/duplicate_detector.py` — exact-duplicate matchers
  (`is_exact_duplicate`), with the Mongo store modelled as a list of
  documents and `find_one` as first match in insertion order.
* `src/data_base/embedding_utils.py` — cosine similarity, fuzzy search
  (`find_similar_embeddings`) and the pipeline (`process_invoice`); the
  external sentence-transformer is abstracted as a fallible encoder
  `Doc → Option (List ℝ)` (`none` models a raised exception).
-/

namespace InvoiceProof

/-! ### Numeric normalization (`clean_number`)

`clean_number` in the source parses locale-formatted numeric strings,
returning `0.0` for absent / empty / unparseable input.  The string-parsing
itself is external to every claim, so a field value is modelled as
`Option ℚ`: `none` stands for an absent, empty or unparseable raw value,
`some q` for a raw value that parses to `q`. -/

def clean_number : Option ℚ → ℚ
  | none => 0
  | some q => q

/-- Python's `round` to an integer: round half to even (banker's rounding). -/
def roundHalfEven (x : ℚ) : ℤ :=
  let f : ℤ := ⌊x⌋
  let frac : ℚ := x - (f : ℚ)
  if frac < 1/2 then f
  else if 1/2 < frac then f + 1
  else if f % 2 = 0 then f else f + 1

/-- Python's `round(x, 2)`. -/
def round2 (x : ℚ) : ℚ := ((roundHalfEven (100 * x) : ℤ) : ℚ) / 100

/-! ### Data model of `validate_invoice` -/

structure Item where
  description : Option String
  quantity : Option ℚ
  rate : Option ℚ
  amount : Option ℚ
deriving DecidableEq

structure Summary where
  subtotal : Option ℚ
  cgst : Option ℚ
  sgst : Option ℚ
  igst : Option ℚ
  tax_amount : Option ℚ
  round_off : Option ℚ
  total_amount : Option ℚ
deriving DecidableEq

/-- An invoice as consumed by `validate_invoice`; a missing `"summary"` key
behaves as `{}`, i.e. a `Summary` with every field `none`. -/
structure Invoice where
  summary : Summary
  items : List Item
deriving DecidableEq

/-- The error strings appended by `validate_invoice`, modelled by
constructor (one per `errors.append` site in the source) together with the
numeric payload that the source formats into the string. -/
inductive ErrMsg where
  | missingValue (desc : String)
  | itemMismatch (desc : String) (qty rate expected amount : ℚ)
  | subtotalMismatch (expected found : ℚ)
  | taxMismatch (calcAmt declared : ℚ)
  | grandTotalMismatch (expected found : ℚ)
deriving DecidableEq

/-- Accumulator of the item loop of `validate_invoice`. -/
structure LoopState where
  errors : List ErrMsg
  subtotal_sum : ℚ
  calc_subtotal : ℚ
  status_data_extract : Bool
deriving DecidableEq

def initLoopState : LoopState := ⟨[], 0, 0, true⟩

/-- One iteration of the item loop of `validate_invoice`
(`src/src/arthimeticCheck.py`, lines 49–73). -/
def processItem (st : LoopState) (it : Item) : LoopState :=
  let desc := it.description.getD "Unknown Item"
  let qty0 := clean_number it.quantity
  let rate0 := clean_number it.rate
  let amount := clean_number it.amount
  let s := st.subtotal_sum + amount
  let qty := if qty0 = 0 ∧ rate0 = 0 ∧ amount ≠ 0 then 1 else qty0
  let rate := if qty0 = 0 ∧ rate0 = 0 ∧ amount ≠ 0 then amount else rate0
  if qty = 0 ∨ rate = 0 ∨ amount = 0 then
    ⟨st.errors ++ [ErrMsg.missingValue desc], s, st.calc_subtotal, false⟩
  else
    let expected := round2 (qty * rate)
    let cs := st.calc_subtotal + expected
    if 1/100 < |expected - amount| then
      ⟨st.errors ++ [ErrMsg.itemMismatch desc qty rate expected amount], s, cs,
        st.status_data_extract⟩
    else
      ⟨st.errors, s, cs, st.status_data_extract⟩

def itemsState (inv : Invoice) : LoopState :=
  inv.items.foldl processItem initLoopState

/-- `calc_subtotal` after the fallback `if calc_subtotal == 0`. -/
def calcSubtotal (inv : Invoice) : ℚ :=
  let st := itemsState inv
  if st.calc_subtotal = 0 then st.subtotal_sum else st.calc_subtotal

def declaredSubtotal (inv : Invoice) : ℚ := clean_number inv.summary.subtotal

/-- The condition of the subtotal-mismatch branch
(`if summary_subtotal and abs(summary_subtotal - calc_subtotal) > 0.01`). -/
def subtotalMismatch (inv : Invoice) : Bool :=
  if declaredSubtotal inv ≠ 0 ∧ 1/100 < |declaredSubtotal inv - calcSubtotal inv| then
    true
  else false

/-- `summary_subtotal` after the subtotal step: the declared value on a
mismatch (the source leaves it unchanged in that branch), the computed
subtotal otherwise. -/
def workingSubtotal (inv : Invoice) : ℚ :=
  if subtotalMismatch inv then declaredSubtotal inv else calcSubtotal inv

def cgstOf (inv : Invoice) : ℚ := clean_number inv.summary.cgst
def sgstOf (inv : Invoice) : ℚ := clean_number inv.summary.sgst
def igstOf (inv : Invoice) : ℚ := clean_number inv.summary.igst
def declaredTax (inv : Invoice) : ℚ := clean_number inv.summary.tax_amount

/-- `cgst > 50 or sgst > 50 or igst > 50`: the tax components are treated
as absolute amounts. -/
def taxIsAmounts (inv : Invoice) : Bool :=
  if 50 < cgstOf inv ∨ 50 < sgstOf inv ∨ 50 < igstOf inv then true else false

def taxSum (inv : Invoice) : ℚ := cgstOf inv + sgstOf inv + igstOf inv

/-- Condition of the tax-mismatch branch (amounts case only). -/
def taxMismatch (inv : Invoice) : Bool :=
  taxIsAmounts inv && if 1/100 < |taxSum inv - declaredTax inv| then true else false

/-- `tax_amount` after the tax step. -/
def workingTax (inv : Invoice) : ℚ :=
  if taxIsAmounts inv then taxSum inv
  else
    workingSubtotal inv * (cgstOf inv / 100) + workingSubtotal inv * (sgstOf inv / 100) +
      workingSubtotal inv * (igstOf inv / 100)

def declaredTotal (inv : Invoice) : ℚ := clean_number inv.summary.total_amount
def roundOff (inv : Invoice) : ℚ := clean_number inv.summary.round_off

def expectedTotal (inv : Invoice) : ℚ :=
  round2 (workingSubtotal inv + workingTax inv + roundOff inv)

/-- Condition of the grand-total-mismatch branch
(`if total_amount and abs(expected_total - total_amount) > 1`). -/
def grandMismatch (inv : Invoice) : Bool :=
  if declaredTotal inv ≠ 0 ∧ 1 < |expectedTotal inv - declaredTotal inv| then true
  else false

structure ValidationResult where
  status : Bool
  errors : List ErrMsg
  calc_subtotal : ℚ
  calc_tax : ℚ
  calc_grand : ℚ
  status_grand_total : Bool
  status_subtotal : Bool
  status_tax_total : Bool
  status_data_missing : Bool
deriving DecidableEq

/-- `validate_invoice` (`src/src/arthimeticCheck.py`, lines 13–132). -/
def validate_invoice (inv : Invoice) : ValidationResult :=
  let st := itemsState inv
  let errs1 := st.errors ++
    (if subtotalMismatch inv then
      [ErrMsg.subtotalMismatch (calcSubtotal inv) (declaredSubtotal inv)] else [])
  let errs2 := errs1 ++
    (if taxMismatch inv then [ErrMsg.taxMismatch (taxSum inv) (declaredTax inv)] else [])
  let errs3 := errs2 ++
    (if grandMismatch inv then
      [ErrMsg.grandTotalMismatch (expectedTotal inv) (declaredTotal inv)] else [])
  { status := errs3.isEmpty
    errors := errs3
    calc_subtotal := round2 (workingSubtotal inv)
    calc_tax := round2 (workingTax inv)
    calc_grand := round2 (expectedTotal inv)
    status_grand_total := !grandMismatch inv
    status_subtotal := !subtotalMismatch inv
    status_tax_total := !taxMismatch inv
    status_data_missing := st.status_data_extract }

/-! Predicates classifying error messages, used to state the claims. -/

def isItemMismatchErr : ErrMsg → Bool
  | ErrMsg.itemMismatch _ _ _ _ _ => true
  | _ => false

def isMissingErr : ErrMsg → Bool
  | ErrMsg.missingValue _ => true
  | _ => false

def isSubtotalErr : ErrMsg → Bool
  | ErrMsg.subtotalMismatch _ _ => true
  | _ => false

def isTaxErr : ErrMsg → Bool
  | ErrMsg.taxMismatch _ _ => true
  | _ => false

def isGrandErr : ErrMsg → Bool
  | ErrMsg.grandTotalMismatch _ _ => true
  | _ => false

def hasTaxErr (l : List ErrMsg) : Bool := l.any isTaxErr
def hasSubtotalErr (l : List ErrMsg) : Bool := l.any isSubtotalErr
def hasGrandErr (l : List ErrMsg) : Bool := l.any isGrandErr
def hasItemMismatchErr (l : List ErrMsg) : Bool := l.any isItemMismatchErr

/-! ### Exact-duplicate matching

The Mongo invoice collection is modelled as a `List Doc` in insertion
order; `find_one` returns the first matching document together with its
position, which stands in for the Mongo `_id`. -/

/-- The `"summary"` sub-document, as consulted by `is_exact_duplicate`
(only `total_amount` is read there). -/
structure SummaryDoc where
  total_amount : Option ℚ
deriving DecidableEq

/-- An invoice document as stored/queried by the duplicate detectors. -/
structure Doc where
  invoice_no : Option String
  gstin_company : Option String
  invoice_date : Option String
  summary : Option SummaryDoc
  invoice_amount : Option ℚ
deriving DecidableEq

/-- Python truthiness of an optional string (`if invoice_no:`):
false for `None` and for the empty string. -/
def truthyStr : Option String → Bool
  | none => false
  | some s => !(s == "")

/-- `total` in `is_exact_duplicate`: prefer `summary["total_amount"]`
(when `summary` is a dict), fall back to `invoice_amount`. -/
def docTotal (d : Doc) : Option ℚ :=
  match d.summary with
  | some s =>
      match s.total_amount with
      | some t => some t
      | none => d.invoice_amount
  | none => d.invoice_amount

/-- The Mongo query built by `is_exact_duplicate`: at most one equality
constraint per key plus the `$or` disjunction on the total. -/
structure InvQuery where
  invoice_no : Option String
  gstin_company : Option String
  invoice_date : Option String
  total : Option ℚ
deriving DecidableEq

def emptyQuery : InvQuery := ⟨none, none, none, none⟩

/-- Query construction of `src/data_base/duplicate_utils.py`
(lines 15–33): keys on invoice number, vendor GSTIN, invoice date and
the total disjunction. -/
def buildQuery (doc : Doc) : InvQuery :=
  { invoice_no := if truthyStr doc.invoice_no then doc.invoice_no else none
    gstin_company := if truthyStr doc.gstin_company then doc.gstin_company else none
    invoice_date := if truthyStr doc.invoice_date then doc.invoice_date else none
    total := docTotal doc }

/-- Query construction of `src/database/duplicate_detector.py`
(lines 84–99): same as `buildQuery` except that `invoice_date` is never
added to the query. -/
def buildQueryDetector (doc : Doc) : InvQuery :=
  { invoice_no := if truthyStr doc.invoice_no then doc.invoice_no else none
    gstin_company := if truthyStr doc.gstin_company then doc.gstin_company else none
    invoice_date := none
    total := docTotal doc }

/-- A single equality constraint of the query: absent keys impose nothing,
a present key requires the stored field to hold exactly that value. -/
def eqIfPresent (q : Option String) (d : Option String) : Bool :=
  match q with
  | none => true
  | some s => d == some s

/-- The `$or` clause on the total: the stored `summary.total_amount` or the
stored top-level `invoice_amount` must equal the queried total. -/
def totalMatches (qt : Option ℚ) (d : Doc) : Bool :=
  match qt with
  | none => true
  | some t =>
      ((d.summary.bind SummaryDoc.total_amount) == some t) || (d.invoice_amount == some t)

/-- Mongo matching semantics of the built query against a stored document:
every present key must be equal, plus the `$or` clause on the total. -/
def matchesQuery (q : InvQuery) (d : Doc) : Bool :=
  eqIfPresent q.invoice_no d.invoice_no &&
  eqIfPresent q.gstin_company d.gstin_company &&
  eqIfPresent q.invoice_date d.invoice_date &&
  totalMatches q.total d

/-- `find_one`: first stored document matching the query, with its index
(standing in for the Mongo `_id`). -/
def findOneIdx (store : List Doc) (q : InvQuery) : Option (Nat × Doc) :=
  store.enum.find? fun p => matchesQuery q p.2

/-- `is_exact_duplicate` of `src/data_base/duplicate_utils.py`:
`if not query: return None` then `find_one(query)`. -/
def is_exact_duplicate (store : List Doc) (doc : Doc) : Option (Nat × Doc) :=
  let q := buildQuery doc
  if q = emptyQuery then none else findOneIdx store q

/-- `is_exact_duplicate` of `src/database/duplicate_detector.py`
(no `invoice_date` key). -/
def is_exact_duplicate_detector (store : List Doc) (doc : Doc) : Option (Nat × Doc) :=
  let q := buildQueryDetector doc
  if q = emptyQuery then none else findOneIdx store q

/-! ### Embeddings, cosine similarity, fuzzy search and the pipeline
(`src/data_base/embedding_utils.py`)

The external sentence-transformer (applied to the canonical JSON
serialization of `normalize_for_embedding`) is abstracted as an encoder
`enc : Doc → Option (List ℝ)`; `enc doc = none` models the encoder (or any
step of `compute_embedding_for_doc`'s `try` block) raising an exception. -/

/-- `np.dot` of two equal-length vectors (as used on 1-d arrays). -/
def dotl (a b : List ℝ) : ℝ := (List.zipWith (· * ·) a b).sum

/-- `np.linalg.norm`: Euclidean norm. -/
noncomputable def norm2 (v : List ℝ) : ℝ := Real.sqrt (dotl v v)

/-- `cosine_similarity` (lines 76–82): returns `0.0` when the product of
norms is zero, otherwise `dot / denom`; `none` models the `ValueError`
`np.dot` raises on a shape mismatch (only reachable when both norms are
nonzero, since the denominator is checked first). -/
noncomputable def cosine_similarity (a b : List ℝ) : Option ℝ :=
  let denom := norm2 a * norm2 b
  if denom = 0 then some 0
  else if a.length = b.length then some (dotl a b / denom)
  else none

/-- `compute_embedding_for_doc` (lines 59–73): the whole body is inside
`try`, and any exception yields `[]`. -/
def compute_embedding_for_doc (enc : Doc → Option (List ℝ)) (doc : Doc) : List ℝ :=
  match enc doc with
  | some v => v
  | none => []

/-- A document of the embeddings collection; a missing/`None` `embedding`
field is merged with `[]` (both are falsy for the `if not other` guard). -/
structure EmbRecord where
  invoice_id : Option Nat
  embedding : List ℝ
  file_name : Option String

/-- One step of Python's stable descending sort by score
(`candidates.sort(key=lambda x: x[1], reverse=True)`): insert `x` before
the first element with a strictly smaller score. -/
noncomputable def insertDesc (x : String × ℝ) : List (String × ℝ) → List (String × ℝ)
  | [] => [x]
  | y :: ys => if y.2 < x.2 then x :: y :: ys else y :: insertDesc x ys

noncomputable def sortDesc (l : List (String × ℝ)) : List (String × ℝ) :=
  l.foldl (fun acc x => insertDesc x acc) []

/-- `find_similar_embeddings` (lines 85–99): linear scan, skip falsy
embeddings, skip candidates whose similarity computation raises, keep
scores `≥ threshold`, sort descending, truncate to `top_k`.  The reported
name is `str(doc.get("file_name"))` (hence `"None"` for a missing name). -/
noncomputable def find_similar_embeddings (embedding : List ℝ) (store : List EmbRecord)
    (top_k : Nat) (threshold : ℝ) : List (String × ℝ) :=
  let candidates := store.filterMap fun d =>
    if d.embedding = [] then none
    else
      match cosine_similarity embedding d.embedding with
      | none => none
      | some sim => if threshold ≤ sim then some (d.file_name.getD "None", sim) else none
  (sortDesc candidates).take top_k

/-- The two collections backing the engine. -/
structure DBState where
  invoices : List Doc
  embeddings : List EmbRecord

/-- The result dict of `process_invoice`. -/
structure PResult where
  file : String
  exact_duplicate : Option Nat
  fuzzy_matches : List (String × ℝ)
  inserted_id : Option Nat

def DEFAULT_THRESHOLD : ℝ := 0.95

/-- `process_invoice` (lines 102–136): exact-duplicate check, optional
insert, embedding, fuzzy search, store embedding.  The source's
`if emb is None` guard never fires (`compute_embedding_for_doc` always
returns a list, possibly empty), so it is modelled as skipped. -/
noncomputable def process_invoice (enc : Doc → Option (List ℝ)) (st : DBState) (doc : Doc)
    (insert : Bool) (threshold : ℝ) (file_name : Option String) : PResult × DBState :=
  match is_exact_duplicate st.invoices doc with
  | some (i, _ex) =>
      ({ file := file_name.getD "<in-memory>", exact_duplicate := some i,
         fuzzy_matches := [], inserted_id := none }, st)
  | none =>
      let inserted_id : Option Nat := if insert then some st.invoices.length else none
      let invoices' := if insert then st.invoices ++ [doc] else st.invoices
      let emb := compute_embedding_for_doc enc doc
      let found := find_similar_embeddings emb st.embeddings 5 threshold
      ({ file := file_name.getD "<in-memory>", exact_duplicate := none,
         fuzzy_matches := found, inserted_id := inserted_id },
       { invoices := invoices'
         embeddings := st.embeddings ++
           [{ invoice_id := inserted_id, embedding := emb, file_name := file_name }] })

/-! ### Projections used to state the claims -/

/-- State of the mismatch-free item loop: only the data consulted by the
four boolean sub-flags. -/
structure LoopStateNM where
  subtotal_sum : ℚ
  calc_subtotal : ℚ
  status_data_extract : Bool
deriving DecidableEq

/-- The item loop of `validate_invoice` with the line-level mismatch
reporting deleted: it tracks exactly the data the four boolean flags are
computed from, and never performs the `|expected − amount| > 0.01` test. -/
def processItemNM (st : LoopStateNM) (it : Item) : LoopStateNM :=
  let qty0 := clean_number it.quantity
  let rate0 := clean_number it.rate
  let amount := clean_number it.amount
  let s := st.subtotal_sum + amount
  let qty := if qty0 = 0 ∧ rate0 = 0 ∧ amount ≠ 0 then 1 else qty0
  let rate := if qty0 = 0 ∧ rate0 = 0 ∧ amount ≠ 0 then amount else rate0
  if qty = 0 ∨ rate = 0 ∨ amount = 0 then ⟨s, st.calc_subtotal, false⟩
  else ⟨s, st.calc_subtotal + round2 (qty * rate), st.status_data_extract⟩

def projLoop (st : LoopState) : LoopStateNM :=
  ⟨st.subtotal_sum, st.calc_subtotal, st.status_data_extract⟩

def fourFlags (r : ValidationResult) : Bool × Bool × Bool × Bool :=
  (r.status_grand_total, r.status_subtotal, r.status_tax_total, r.status_data_missing)

/-- The four boolean sub-flags recomputed without any error reporting:
grand-total, subtotal, tax-total, no-missing-data. -/
def flagsOnly (inv : Invoice) : Bool × Bool × Bool × Bool :=
  let st := inv.items.foldl processItemNM ⟨0, 0, true⟩
  let calcSub := if st.calc_subtotal = 0 then st.subtotal_sum else st.calc_subtotal
  let declSub := clean_number inv.summary.subtotal
  let subMm : Bool := if declSub ≠ 0 ∧ 1/100 < |declSub - calcSub| then true else false
  let ws := if subMm then declSub else calcSub
  let c := clean_number inv.summary.cgst
  let s := clean_number inv.summary.sgst
  let i := clean_number inv.summary.igst
  let amountsCase : Bool := if 50 < c ∨ 50 < s ∨ 50 < i then true else false
  let taxMm : Bool :=
    amountsCase &&
      if 1/100 < |c + s + i - clean_number inv.summary.tax_amount| then true else false
  let wt := if amountsCase then c + s + i
    else ws * (c / 100) + ws * (s / 100) + ws * (i / 100)
  let et := round2 (ws + wt + clean_number inv.summary.round_off)
  let gMm : Bool :=
    if clean_number inv.summary.total_amount ≠ 0 ∧
        1 < |et - clean_number inv.summary.total_amount| then true
    else false
  (!gMm, !subMm, !taxMm, st.status_data_extract)

/-- The exact-duplicate matcher as the claim describes it: no query when
none of the four keys is supplied; otherwise the first stored document
that agrees on every supplied key, with the total matched against the
stored summary total or the stored top-level amount. -/
def exactDupSpec (store : List Doc) (doc : Doc) : Option (Nat × Doc) :=
  if truthyStr doc.invoice_no = false ∧ truthyStr doc.gstin_company = false ∧
      truthyStr doc.invoice_date = false ∧ docTotal doc = none then none
  else
    store.enum.find? fun p =>
      (!truthyStr doc.invoice_no || (p.2.invoice_no == doc.invoice_no)) &&
      (!truthyStr doc.gstin_company || (p.2.gstin_company == doc.gstin_company)) &&
      (!truthyStr doc.invoice_date || (p.2.invoice_date == doc.invoice_date)) &&
      totalMatches (docTotal doc) p.2

/-! ### Concrete instances used by counterexamples and witnesses -/

def noSummary : Summary := ⟨none, none, none, none, none, none, none⟩

/-- One line item with a genuine mismatch (2 × 3 ≠ 7), every summary field
absent: overall failure with all four flags true. -/
def invC10 : Invoice := ⟨noSummary, [⟨some "X", some 2, some 3, some 7⟩]⟩

/-- Item with nonzero quantity and rate but zero amount. -/
def inv3a : Invoice := ⟨noSummary, [⟨some "A", some 2, some 3, some 0⟩]⟩

/-- Item with `|q·r − a| = 0.014 > 0.01` but `|round(q·r,2) − a| = 0.01`. -/
def inv3b : Invoice := ⟨noSummary, [⟨some "B", some 1, some (10014/1000), some 10⟩]⟩

def inv2a : Invoice := ⟨⟨none, some 900, some 900, some 0, some 1000, none, none⟩, []⟩

def inv2b : Invoice := ⟨⟨none, some 9, some 9, some 0, none, none, none⟩, []⟩

def inv9 : Invoice := ⟨noSummary, []⟩

def it4 : Item := ⟨none, some 0, none, some 250⟩

/-- Input whose invoice date differs from the stored document's. -/
def doc6 : Doc := ⟨some "A", none, some "2024-01-01", none, none⟩

def d6stored : Doc := ⟨some "A", none, some "2023-12-31", none, none⟩

def doc8 : Doc := ⟨some "INV-1", some "27GST", none, none, none⟩

def docC1 : Doc := ⟨some "B", none, none, none, none⟩

/-- An encoder that always succeeds with the vector `[1, 0]`. -/
noncomputable def encC1 : Doc → Option (List ℝ) := fun _ => some [1, 0]

/-- An encoder that always raises. -/
def encFail : Doc → Option (List ℝ) := fun _ => none

def embPrior : EmbRecord := ⟨some 7, [1, 0], some "prior"⟩

noncomputable def stC1 : DBState := ⟨[], [embPrior]⟩

def st7 : DBState := ⟨[], [⟨some 3, [2], some "e"⟩]⟩

def st0 : DBState := ⟨[], []⟩

end InvoiceProof

namespace InvoiceProof

theorem validate_end_to_end_pass :
    (validate_invoice
      { summary :=
          { subtotal := some 100000, cgst := some 9, sgst := some 9, igst := some 0,
            tax_amount := some 18000, round_off := some 0, total_amount := some 118000 }
        items := [{ description := some "Product A", quantity := some 10,
                    rate := some 10000, amount := some 100000 }] }).status = true := by
  norm_num [validate_invoice, itemsState, processItem, initLoopState, clean_number,
    subtotalMismatch, calcSubtotal, declaredSubtotal, taxMismatch, taxIsAmounts,
    cgstOf, sgstOf, igstOf, taxSum, declaredTax, grandMismatch, expectedTotal,
    workingSubtotal, workingTax, declaredTotal, roundOff, round2, roundHalfEven]

/-! ### Rounding lemmas -/

theorem roundHalfEven_sub_le (x : ℚ) : |((roundHalfEven x : ℤ) : ℚ) - x| ≤ 1/2 := by
  have hf : ((⌊x⌋ : ℤ) : ℚ) ≤ x := Int.floor_le x
  have hf2 : x < ((⌊x⌋ : ℤ) : ℚ) + 1 := Int.lt_floor_add_one x
  simp only [roundHalfEven]
  split_ifs with h1 h2 h3 <;> rw [abs_le] <;> constructor <;> push_cast <;> linarith

theorem round2_sub_le (x : ℚ) : |round2 x - x| ≤ 1/200 := by
  have h := roundHalfEven_sub_le (100 * x)
  rw [abs_le] at h ⊢
  unfold round2
  constructor <;> [linarith [h.1]; linarith [h.2]]

/-! ### Structure of the error list produced by the item loop -/

theorem processItem_errors_cases (st : LoopState) (it : Item) :
    (processItem st it).errors = st.errors ∨
    (∃ d, (processItem st it).errors = st.errors ++ [ErrMsg.missingValue d]) ∨
    (∃ d q r e a, (processItem st it).errors = st.errors ++ [ErrMsg.itemMismatch d q r e a]) := by
  simp only [processItem]
  split_ifs <;> simp

theorem foldl_processItem_any (p : ErrMsg → Bool)
    (h1 : ∀ d, p (ErrMsg.missingValue d) = false)
    (h2 : ∀ d q r e a, p (ErrMsg.itemMismatch d q r e a) = false) :
    ∀ (l : List Item) (st : LoopState), st.errors.any p = false →
      (List.foldl processItem st l).errors.any p = false := by
  intro l
  induction l with
  | nil => intro st h; simpa using h
  | cons it l ih =>
      intro st h
      rw [List.foldl_cons]
      apply ih
      rcases processItem_errors_cases st it with hc | ⟨d, hc⟩ | ⟨d, q, r, e, a, hc⟩ <;>
        rw [hc] <;> simp [List.any_append, h, h1, h2]

theorem itemsState_any_isTaxErr (inv : Invoice) :
    (itemsState inv).errors.any isTaxErr = false :=
  foldl_processItem_any isTaxErr (fun _ => rfl) (fun _ _ _ _ _ => rfl) inv.items
    initLoopState rfl

theorem itemsState_any_isSubtotalErr (inv : Invoice) :
    (itemsState inv).errors.any isSubtotalErr = false :=
  foldl_processItem_any isSubtotalErr (fun _ => rfl) (fun _ _ _ _ _ => rfl) inv.items
    initLoopState rfl

theorem itemsState_any_isGrandErr (inv : Invoice) :
    (itemsState inv).errors.any isGrandErr = false :=
  foldl_processItem_any isGrandErr (fun _ => rfl) (fun _ _ _ _ _ => rfl) inv.items
    initLoopState rfl

theorem validate_errors (inv : Invoice) :
    (validate_invoice inv).errors =
      (itemsState inv).errors ++
      (if subtotalMismatch inv then
        [ErrMsg.subtotalMismatch (calcSubtotal inv) (declaredSubtotal inv)] else []) ++
      (if taxMismatch inv then
        [ErrMsg.taxMismatch (taxSum inv) (declaredTax inv)] else []) ++
      (if grandMismatch inv then
        [ErrMsg.grandTotalMismatch (expectedTotal inv) (declaredTotal inv)] else []) := rfl

theorem hasTaxErr_validate (inv : Invoice) :
    hasTaxErr (validate_invoice inv).errors = taxMismatch inv := by
  unfold hasTaxErr
  rw [validate_errors]
  simp only [List.any_append, itemsState_any_isTaxErr]
  split_ifs with h1 h2 h3 <;> simp_all [isTaxErr]

theorem hasSubtotalErr_validate (inv : Invoice) :
    hasSubtotalErr (validate_invoice inv).errors = subtotalMismatch inv := by
  unfold hasSubtotalErr
  rw [validate_errors]
  simp only [List.any_append, itemsState_any_isSubtotalErr]
  split_ifs with h1 h2 h3 <;> simp_all [isSubtotalErr]

theorem hasGrandErr_validate (inv : Invoice) :
    hasGrandErr (validate_invoice inv).errors = grandMismatch inv := by
  unfold hasGrandErr
  rw [validate_errors]
  simp only [List.any_append, itemsState_any_isGrandErr]
  split_ifs with h1 h2 h3 <;> simp_all [isGrandErr]

theorem status_tax_total_validate (inv : Invoice) :
    (validate_invoice inv).status_tax_total = !taxMismatch inv := rfl

theorem status_subtotal_validate (inv : Invoice) :
    (validate_invoice inv).status_subtotal = !subtotalMismatch inv := rfl

theorem status_grand_validate (inv : Invoice) :
    (validate_invoice inv).status_grand_total = !grandMismatch inv := rfl

theorem calc_tax_validate (inv : Invoice) :
    (validate_invoice inv).calc_tax = round2 (workingTax inv) := rfl

/-- Claim C2 (confirmed): when any componentized tax field exceeds 50 the
three are summed, compared against the declared tax amount with tolerance
0.01 (mismatch error and tax-total flag false exactly when the absolute
difference exceeds 0.01) and the sum becomes the working tax amount;
when all three are at most 50 they are treated as percentages of the
working subtotal, no tax mismatch is emitted and the tax-total flag stays
true. -/
theorem c2_thm (inv : Invoice) :
    (50 < cgstOf inv ∨ 50 < sgstOf inv ∨ 50 < igstOf inv →
      (hasTaxErr (validate_invoice inv).errors = true ↔
        1/100 < |taxSum inv - declaredTax inv|) ∧
      ((validate_invoice inv).status_tax_total = false ↔
        1/100 < |taxSum inv - declaredTax inv|) ∧
      workingTax inv = taxSum inv ∧
      (validate_invoice inv).calc_tax = round2 (taxSum inv)) ∧
    (cgstOf inv ≤ 50 ∧ sgstOf inv ≤ 50 ∧ igstOf inv ≤ 50 →
      hasTaxErr (validate_invoice inv).errors = false ∧
      (validate_invoice inv).status_tax_total = true ∧
      workingTax inv =
        workingSubtotal inv * ((cgstOf inv + sgstOf inv + igstOf inv) / 100) ∧
      (validate_invoice inv).calc_tax =
        round2 (workingSubtotal inv * ((cgstOf inv + sgstOf inv + igstOf inv) / 100))) := by
  constructor
  · intro h
    have hA : taxIsAmounts inv = true := by unfold taxIsAmounts; rw [if_pos h]
    have hmm : taxMismatch inv =
        (if 1/100 < |taxSum inv - declaredTax inv| then true else false) := by
      unfold taxMismatch; rw [hA]; simp
    have hwt : workingTax inv = taxSum inv := by
      unfold workingTax; rw [hA, if_pos rfl]
    refine ⟨?_, ?_, hwt, ?_⟩
    · rw [hasTaxErr_validate, hmm]
      split_ifs with hc
      · exact ⟨fun _ => hc, fun _ => rfl⟩
      · exact ⟨fun hfe => hfe.elim, fun hcond => absurd hcond hc⟩
    · rw [status_tax_total_validate, hmm]
      split_ifs with hc
      · exact ⟨fun _ => hc, fun _ => rfl⟩
      · exact ⟨fun hfe => by simp at hfe, fun hcond => absurd hcond hc⟩
    · rw [calc_tax_validate, hwt]
  · intro h
    have hA : taxIsAmounts inv = false := by
      unfold taxIsAmounts
      rw [if_neg]
      push_neg
      exact ⟨h.1, h.2.1, h.2.2⟩
    have hmm : taxMismatch inv = false := by unfold taxMismatch; rw [hA]; simp
    have hwt : workingTax inv =
        workingSubtotal inv * ((cgstOf inv + sgstOf inv + igstOf inv) / 100) := by
      unfold workingTax; rw [hA, if_neg Bool.false_ne_true]; ring
    refine ⟨?_, ?_, hwt, ?_⟩
    · rw [hasTaxErr_validate, hmm]
    · rw [status_tax_total_validate, hmm]; rfl
    · rw [calc_tax_validate, hwt]

/-- Witness for C2 at `inv2a` (absolute-amounts branch, mismatching
declared tax) and `inv2b` (percentage branch). -/
theorem c2_witness :
    hasTaxErr (validate_invoice inv2a).errors = true ∧
    (validate_invoice inv2a).status_tax_total = false ∧
    workingTax inv2a = taxSum inv2a ∧
    hasTaxErr (validate_invoice inv2b).errors = false ∧
    (validate_invoice inv2b).status_tax_total = true := by
  have ha := (c2_thm inv2a).1 (by norm_num [cgstOf, clean_number, inv2a])
  have hb := (c2_thm inv2b).2
    (by norm_num [cgstOf, sgstOf, igstOf, clean_number, inv2b])
  have hd : 1/100 < |taxSum inv2a - declaredTax inv2a| := by
    norm_num [taxSum, declaredTax, cgstOf, sgstOf, igstOf, clean_number, inv2a]
  exact ⟨ha.1.mpr hd, ha.2.1.mpr hd, ha.2.2.1, hb.1, hb.2.1⟩

/-- Claim C9 (confirmed): a declared subtotal that normalizes to `0.0` can
never produce a subtotal mismatch (the computed subtotal is adopted), and
a declared grand total that normalizes to `0.0` can never produce a
grand-total mismatch. -/
theorem c9_thm (inv : Invoice) :
    (declaredSubtotal inv = 0 →
      hasSubtotalErr (validate_invoice inv).errors = false ∧
      (validate_invoice inv).status_subtotal = true ∧
      workingSubtotal inv = calcSubtotal inv) ∧
    (declaredTotal inv = 0 →
      hasGrandErr (validate_invoice inv).errors = false ∧
      (validate_invoice inv).status_grand_total = true) := by
  constructor
  · intro h
    have hmm : subtotalMismatch inv = false := by
      unfold subtotalMismatch
      rw [if_neg]
      intro hc
      exact hc.1 h
    exact ⟨by rw [hasSubtotalErr_validate, hmm],
      by rw [status_subtotal_validate, hmm]; rfl,
      by unfold workingSubtotal; rw [hmm]; rfl⟩
  · intro h
    have hmm : grandMismatch inv = false := by
      unfold grandMismatch
      rw [if_neg]
      intro hc
      exact hc.1 h
    exact ⟨by rw [hasGrandErr_validate, hmm],
      by rw [status_grand_validate, hmm]; rfl⟩

/-- Witness for C9 at `inv9` (both declared values absent, hence
normalizing to zero). -/
theorem c9_witness :
    hasSubtotalErr (validate_invoice inv9).errors = false ∧
    (validate_invoice inv9).status_subtotal = true ∧
    workingSubtotal inv9 = calcSubtotal inv9 ∧
    hasGrandErr (validate_invoice inv9).errors = false ∧
    (validate_invoice inv9).status_grand_total = true := by
  have h1 := (c9_thm inv9).1 rfl
  have h2 := (c9_thm inv9).2 rfl
  exact ⟨h1.1, h1.2.1, h1.2.2, h2.1, h2.2⟩

/-! ### The four flags never depend on line-level mismatch reporting -/

theorem projLoop_processItem (st : LoopState) (it : Item) :
    projLoop (processItem st it) = processItemNM (projLoop st) it := by
  simp only [processItem, processItemNM]
  split_ifs <;> rfl

theorem projLoop_foldl (l : List Item) :
    ∀ st : LoopState,
      projLoop (List.foldl processItem st l) = List.foldl processItemNM (projLoop st) l := by
  induction l with
  | nil => intro st; rfl
  | cons it l ih =>
      intro st
      rw [List.foldl_cons, List.foldl_cons, ih, projLoop_processItem]

theorem itemsState_proj (inv : Invoice) :
    projLoop (itemsState inv) = inv.items.foldl processItemNM ⟨0, 0, true⟩ :=
  projLoop_foldl inv.items initLoopState

theorem fourFlags_validate (inv : Invoice) :
    fourFlags (validate_invoice inv) = flagsOnly inv := by
  unfold flagsOnly
  rw [← itemsState_proj inv]
  rfl

/-- Claim C10 (confirmed): line-level mismatch errors influence only the
overall status and the errors list, never the four boolean sub-flags
(they equal `flagsOnly`, which never performs the line-mismatch test);
overall status is true exactly when the errors list is empty; and a
result can have overall status false with all four flags true. -/
theorem c10_thm :
    (∀ inv : Invoice,
      (validate_invoice inv).status = (validate_invoice inv).errors.isEmpty ∧
      fourFlags (validate_invoice inv) = flagsOnly inv) ∧
    ((validate_invoice invC10).status = false ∧
      fourFlags (validate_invoice invC10) = (true, true, true, true)) := by
  refine ⟨fun inv => ⟨rfl, fourFlags_validate inv⟩, ?_, ?_⟩
  · norm_num [validate_invoice, itemsState, processItem, initLoopState, clean_number,
      subtotalMismatch, calcSubtotal, declaredSubtotal, taxMismatch, taxIsAmounts,
      cgstOf, sgstOf, igstOf, taxSum, declaredTax, grandMismatch, expectedTotal,
      workingSubtotal, workingTax, declaredTotal, roundOff, round2, roundHalfEven,
      invC10, noSummary]
  · norm_num [fourFlags, validate_invoice, itemsState, processItem, initLoopState,
      clean_number, subtotalMismatch, calcSubtotal, declaredSubtotal, taxMismatch,
      taxIsAmounts, cgstOf, sgstOf, igstOf, taxSum, declaredTax, grandMismatch,
      expectedTotal, workingSubtotal, workingTax, declaredTotal, roundOff, round2,
      roundHalfEven, invC10, noSummary]

/-! ### Line-level mismatch check (C3, C4) -/

/-- Claim C3 (corrected): for a line item whose normalized quantity, rate
and amount are all nonzero, a line-level mismatch error is emitted exactly
when `|round(quantity × rate, 2) − amount| > 0.01` (the source rounds the
expected amount before comparing). -/
theorem c3_thm (st : LoopState) (it : Item)
    (hq : clean_number it.quantity ≠ 0) (hr : clean_number it.rate ≠ 0)
    (ha : clean_number it.amount ≠ 0) :
    (processItem st it).errors =
      if 1/100 < |round2 (clean_number it.quantity * clean_number it.rate) -
          clean_number it.amount| then
        st.errors ++ [ErrMsg.itemMismatch (it.description.getD "Unknown Item")
          (clean_number it.quantity) (clean_number it.rate)
          (round2 (clean_number it.quantity * clean_number it.rate))
          (clean_number it.amount)]
      else st.errors := by
  have hC : ¬(clean_number it.quantity = 0 ∧ clean_number it.rate = 0 ∧
      clean_number it.amount ≠ 0) := fun hc => hq hc.1
  have hG : ¬(clean_number it.quantity = 0 ∨ clean_number it.rate = 0 ∨
      clean_number it.amount = 0) := by
    push_neg
    exact ⟨hq, hr, ha⟩
  simp only [processItem, if_neg hC, if_neg hG]
  split_ifs <;> rfl

/-- Witness for C3 at a mismatching item (2 × 3 = 6 declared as 7). -/
theorem c3_witness :
    (processItem initLoopState ⟨some "X", some 2, some 3, some 7⟩).errors =
      if 1/100 < |round2 (clean_number (some 2) * clean_number (some 3)) -
          clean_number (some 7)| then
        initLoopState.errors ++ [ErrMsg.itemMismatch "X" (clean_number (some 2))
          (clean_number (some 3)) (round2 (clean_number (some 2) * clean_number (some 3)))
          (clean_number (some 7))]
      else initLoopState.errors :=
  c3_thm initLoopState ⟨some "X", some 2, some 3, some 7⟩ (by norm_num [clean_number])
    (by norm_num [clean_number]) (by norm_num [clean_number])

/-- Counterexample to C3 as stated: for `inv3a` (quantity 2, rate 3,
amount 0) the claim demands a mismatch error since `|2·3 − 0| > 0.01`,
but the validator emits none (the zero amount is reported as missing
data instead); for `inv3b` (quantity 1, rate 10.014, amount 10) the claim
demands a mismatch error since `|1·10.014 − 10| = 0.014 > 0.01`, but the
validator emits none (it compares the rounded product 10.01). -/
theorem c3_cex :
    (1/100 < |(2 : ℚ) * 3 - 0| ∧
      hasItemMismatchErr (validate_invoice inv3a).errors = false) ∧
    (1/100 < |(1 : ℚ) * (10014/1000) - 10| ∧
      hasItemMismatchErr (validate_invoice inv3b).errors = false) := by
  have habs : ¬ ((1:ℚ)/100 < |(1:ℚ)/100|) := by
    rw [abs_of_pos (by norm_num : (0:ℚ) < 1/100)]
    exact lt_irrefl _
  refine ⟨⟨by norm_num, ?_⟩, ⟨?_, ?_⟩⟩
  · norm_num [hasItemMismatchErr, isItemMismatchErr, validate_invoice, itemsState,
      processItem, initLoopState, clean_number, subtotalMismatch, calcSubtotal,
      declaredSubtotal, taxMismatch, taxIsAmounts, cgstOf, sgstOf, igstOf, taxSum,
      declaredTax, grandMismatch, expectedTotal, workingSubtotal, workingTax,
      declaredTotal, roundOff, round2, roundHalfEven, inv3a, noSummary]
  · have h7 : (1:ℚ) * (10014/1000) - 10 = 7/500 := by norm_num
    rw [h7, abs_of_pos (by norm_num : (0:ℚ) < 7/500)]
    norm_num
  · norm_num [hasItemMismatchErr, isItemMismatchErr, validate_invoice, itemsState,
      processItem, initLoopState, clean_number, subtotalMismatch, calcSubtotal,
      declaredSubtotal, taxMismatch, taxIsAmounts, cgstOf, sgstOf, igstOf, taxSum,
      declaredTax, grandMismatch, expectedTotal, workingSubtotal, workingTax,
      declaredTotal, roundOff, round2, roundHalfEven, inv3b, noSummary, habs]

/-- Claim C4 (confirmed): a line with zero quantity and rate but nonzero
amount is rescued as one unit at rate = amount: no error of any kind is
recorded for it, the no-missing-data flag is untouched, and the expected
subtotal grows by `round(1 × amount, 2)`. -/
theorem c4_thm (st : LoopState) (it : Item)
    (hq : clean_number it.quantity = 0) (hr : clean_number it.rate = 0)
    (ha : clean_number it.amount ≠ 0) :
    (processItem st it).errors = st.errors ∧
    (processItem st it).status_data_extract = st.status_data_extract ∧
    (processItem st it).calc_subtotal =
      st.calc_subtotal + round2 (1 * clean_number it.amount) := by
  have hC : clean_number it.quantity = 0 ∧ clean_number it.rate = 0 ∧
      clean_number it.amount ≠ 0 := ⟨hq, hr, ha⟩
  have hG : ¬((1 : ℚ) = 0 ∨ clean_number it.amount = 0 ∨ clean_number it.amount = 0) := by
    push_neg
    exact ⟨one_ne_zero, ha, ha⟩
  have hclose : ¬(1/100 < |round2 (1 * clean_number it.amount) - clean_number it.amount|) := by
    push_neg
    have h := round2_sub_le (1 * clean_number it.amount)
    rw [one_mul] at h
    calc |round2 (1 * clean_number it.amount) - clean_number it.amount| ≤ 1/200 := by
          rw [one_mul]; exact h
      _ ≤ 1/100 := by norm_num
  simp only [processItem, if_pos hC, if_neg hG, if_neg hclose]
  exact ⟨trivial, trivial, trivial⟩

/-- Witness for C4 at quantity 0, rate absent, amount 250. -/
theorem c4_witness :
    (processItem initLoopState it4).errors = initLoopState.errors ∧
    (processItem initLoopState it4).status_data_extract =
      initLoopState.status_data_extract ∧
    (processItem initLoopState it4).calc_subtotal =
      initLoopState.calc_subtotal + round2 (1 * clean_number it4.amount) :=
  c4_thm initLoopState it4 rfl rfl (by norm_num [it4, clean_number])

/-! ### Cosine similarity (C5) -/

theorem dotl_nil (b : List ℝ) : dotl [] b = 0 := rfl

theorem dotl_nil_right (a : List ℝ) : dotl a [] = 0 := by
  cases a <;> rfl

theorem dotl_cons (x y : ℝ) (xs ys : List ℝ) :
    dotl (x :: xs) (y :: ys) = x * y + dotl xs ys := by
  simp [dotl]

theorem dotl_self_nonneg (v : List ℝ) : 0 ≤ dotl v v := by
  induction v with
  | nil => simp [dotl_nil]
  | cons x xs ih =>
      rw [dotl_cons]
      nlinarith [sq_nonneg x]

theorem dotl_self_pos (v : List ℝ) (h : ∃ x ∈ v, x ≠ 0) : 0 < dotl v v := by
  induction v with
  | nil => simp at h
  | cons x xs ih =>
      rw [dotl_cons]
      rcases h with ⟨y, hy, hy0⟩
      rcases List.mem_cons.mp hy with rfl | hmem
      · nlinarith [mul_self_pos.mpr hy0, dotl_self_nonneg xs]
      · nlinarith [ih ⟨y, hmem, hy0⟩, mul_self_nonneg x]

theorem dotl_sq_le (a : List ℝ) : ∀ b : List ℝ, (dotl a b)^2 ≤ dotl a a * dotl b b := by
  induction a with
  | nil =>
      intro b
      simp [dotl_nil]
  | cons x xs ih =>
      intro b
      cases b with
      | nil =>
          simp [dotl_nil_right]
      | cons y ys =>
          have hA := dotl_self_nonneg xs
          have hB := dotl_self_nonneg ys
          have hih := ih ys
          rw [dotl_cons, dotl_cons, dotl_cons]
          rcases eq_or_lt_of_le hB with hB0 | hB0
          · have hd0 : dotl xs ys = 0 := by
              have h1 : (dotl xs ys)^2 ≤ 0 := by nlinarith [hih]
              have h2 : (0:ℝ) ≤ (dotl xs ys)^2 := sq_nonneg _
              nlinarith [h1, h2]
            rw [hd0, ← hB0]
            nlinarith [mul_nonneg hA (sq_nonneg y)]
          · nlinarith [sq_nonneg (x * dotl ys ys - y * dotl xs ys),
              mul_nonneg (add_nonneg (sq_nonneg y) hB)
                (sub_nonneg.mpr hih), hB0]

theorem norm2_nonneg (v : List ℝ) : 0 ≤ norm2 v := Real.sqrt_nonneg _

theorem norm2_mul_self (v : List ℝ) : norm2 v * norm2 v = dotl v v :=
  Real.mul_self_sqrt (dotl_self_nonneg v)

/-- Claim C5 (corrected): `cosine_similarity` returns a score in `[-1, 1]`
(not `[0, 1]`), returns exactly `0` when either vector has zero norm, and
returns exactly `1` on any nonzero vector paired with itself. -/
theorem c5_thm :
    (∀ (a b : List ℝ) (s : ℝ), cosine_similarity a b = some s → -1 ≤ s ∧ s ≤ 1) ∧
    (∀ a b : List ℝ, norm2 a = 0 ∨ norm2 b = 0 → cosine_similarity a b = some 0) ∧
    (∀ v : List ℝ, (∃ x ∈ v, x ≠ 0) → cosine_similarity v v = some 1) := by
  refine ⟨?_, ?_, ?_⟩
  · intro a b s hs
    unfold cosine_similarity at hs
    by_cases hd : norm2 a * norm2 b = 0
    · rw [if_pos hd] at hs
      cases Option.some.inj hs
      norm_num
    · rw [if_neg hd] at hs
      by_cases hl : a.length = b.length
      · rw [if_pos hl] at hs
        have hs' : s = dotl a b / (norm2 a * norm2 b) := (Option.some.inj hs).symm
        have hpos : 0 < norm2 a * norm2 b :=
          lt_of_le_of_ne (mul_nonneg (norm2_nonneg a) (norm2_nonneg b)) (Ne.symm hd)
        have hcs : (dotl a b)^2 ≤ (norm2 a * norm2 b)^2 := by
          calc (dotl a b)^2 ≤ dotl a a * dotl b b := dotl_sq_le a b
            _ = (norm2 a * norm2 b)^2 := by
                rw [mul_pow, sq, sq, norm2_mul_self, norm2_mul_self]
        have hb := abs_le_of_sq_le_sq' hcs hpos.le
        constructor
        · rw [hs', le_div_iff hpos]
          linarith [hb.1]
        · rw [hs', div_le_one hpos]
          exact hb.2
      · rw [if_neg hl] at hs
        exact absurd hs (by simp)
  · intro a b h
    unfold cosine_similarity
    have hd : norm2 a * norm2 b = 0 := by
      rcases h with h | h
      · rw [h, zero_mul]
      · rw [h, mul_zero]
    rw [if_pos hd]
  · intro v hv
    unfold cosine_similarity
    have hdv : 0 < dotl v v := dotl_self_pos v hv
    rw [norm2_mul_self v, if_neg hdv.ne', if_pos rfl, div_self hdv.ne']

/-- Witness for C5: a nonzero vector compared with itself scores exactly 1. -/
theorem c5_witness : cosine_similarity [(1 : ℝ)] [(1 : ℝ)] = some 1 :=
  c5_thm.2.2 [(1 : ℝ)] ⟨1, by simp, one_ne_zero⟩

/-- Counterexample to C5 as stated: cosine similarity of `[1]` and `[-1]`
is `-1`, which lies outside the claimed interval `[0, 1]`. -/
theorem c5_cex :
    cosine_similarity [(1 : ℝ)] [(-1 : ℝ)] = some (-1) ∧ ((-1 : ℝ) < 0) := by
  constructor
  · unfold cosine_similarity
    have ha : dotl [(1 : ℝ)] [(1 : ℝ)] = 1 := by rw [dotl_cons, dotl_nil]; ring
    have hb : dotl [(-1 : ℝ)] [(-1 : ℝ)] = 1 := by rw [dotl_cons, dotl_nil]; ring
    have hab : dotl [(1 : ℝ)] [(-1 : ℝ)] = -1 := by rw [dotl_cons, dotl_nil]; ring
    have hna : norm2 [(1 : ℝ)] = 1 := by unfold norm2; rw [ha, Real.sqrt_one]
    have hnb : norm2 [(-1 : ℝ)] = 1 := by unfold norm2; rw [hb, Real.sqrt_one]
    rw [hna, hnb, hab]
    norm_num
  · norm_num

/-! ### Exact-duplicate matching (C6) -/

theorem eqIfPresent_ite (o x : Option String) :
    eqIfPresent (if truthyStr o then o else none) x = (!truthyStr o || (x == o)) := by
  cases o with
  | none => rfl
  | some s => cases hse : s == "" <;> simp [truthyStr, eqIfPresent, hse]

theorem matchesQuery_buildQuery (doc d : Doc) :
    matchesQuery (buildQuery doc) d =
      ((!truthyStr doc.invoice_no || (d.invoice_no == doc.invoice_no)) &&
       (!truthyStr doc.gstin_company || (d.gstin_company == doc.gstin_company)) &&
       (!truthyStr doc.invoice_date || (d.invoice_date == doc.invoice_date)) &&
       totalMatches (docTotal doc) d) := by
  simp only [matchesQuery, buildQuery, eqIfPresent_ite]

theorem ite_truthy_eq_none (o : Option String) :
    ((if truthyStr o then o else none) = none) ↔ truthyStr o = false := by
  cases o with
  | none => simp [truthyStr]
  | some s => cases hse : s == "" <;> simp [truthyStr, hse]

theorem buildQuery_eq_empty (doc : Doc) :
    buildQuery doc = emptyQuery ↔
      (truthyStr doc.invoice_no = false ∧ truthyStr doc.gstin_company = false ∧
       truthyStr doc.invoice_date = false ∧ docTotal doc = none) := by
  simp only [buildQuery, emptyQuery, InvQuery.mk.injEq, ite_truthy_eq_none, and_assoc]

/-- Claim C6 (corrected): the `data_base` matcher behaves exactly as the
claim describes it — it equals `exactDupSpec`, which keys on precisely the
present (truthy) identifying fields plus the total disjunction, and issues
no query when all four are absent — while the `database/duplicate_detector`
variant never places the invoice date in its query. -/
theorem c6_thm (store : List Doc) (doc : Doc) :
    is_exact_duplicate store doc = exactDupSpec store doc ∧
    (buildQueryDetector doc).invoice_date = none := by
  constructor
  · unfold is_exact_duplicate exactDupSpec
    by_cases he : buildQuery doc = emptyQuery
    · rw [if_pos he, if_pos ((buildQuery_eq_empty doc).mp he)]
    · rw [if_neg he, if_neg (fun hc => he ((buildQuery_eq_empty doc).mpr hc))]
      unfold findOneIdx
      congr 1
      funext p
      rw [matchesQuery_buildQuery]
  · rfl

/-- Counterexample to C6 as stated (applied to the
`database/duplicate_detector` matcher, one of the two the claim covers):
the input `doc6` supplies an invoice date, yet a stored document with a
different date is returned as an exact duplicate, because that matcher
never adds the date to its query. -/
theorem c6_cex :
    truthyStr doc6.invoice_date = true ∧
    d6stored.invoice_date ≠ doc6.invoice_date ∧
    is_exact_duplicate_detector [d6stored] doc6 = some (0, d6stored) := by
  refine ⟨rfl, by simp [d6stored, doc6], ?_⟩
  simp [is_exact_duplicate_detector, buildQueryDetector, doc6, d6stored, truthyStr,
    docTotal, emptyQuery, findOneIdx, matchesQuery, eqIfPresent, totalMatches]

/-! ### Pipeline claims (C1, C7, C8) -/

/-- Claim C8 (confirmed): when the exact-duplicate check returns an
existing record, `process_invoice` returns that record's identifier at
once with no fuzzy matches and no inserted id, and leaves both collections
untouched — no insertion, no embedding computation, no fuzzy check. -/
theorem c8_thm (enc : Doc → Option (List ℝ)) (st : DBState) (doc : Doc)
    (ins : Bool) (threshold : ℝ) (fn : Option String) (i : Nat) (ex : Doc)
    (h : is_exact_duplicate st.invoices doc = some (i, ex)) :
    process_invoice enc st doc ins threshold fn =
      ({ file := fn.getD "<in-memory>", exact_duplicate := some i,
         fuzzy_matches := [], inserted_id := none }, st) := by
  unfold process_invoice
  rw [h]

/-- Witness for C8: a stored document equal to the input on invoice number
and vendor GSTIN short-circuits the pipeline. -/
theorem c8_witness :
    process_invoice encFail ⟨[doc8], []⟩ doc8 true DEFAULT_THRESHOLD none =
      ({ file := (none : Option String).getD "<in-memory>", exact_duplicate := some 0,
         fuzzy_matches := [], inserted_id := none }, ⟨[doc8], []⟩) :=
  c8_thm encFail ⟨[doc8], []⟩ doc8 true DEFAULT_THRESHOLD none 0 doc8 (by decide)

/-- Claim C1 (amended, corrected): with insertion enabled and no exact
duplicate, the record is persisted and an embedding record is stored for
it unconditionally — before and independently of the fuzzy check, whose
matches are computed against the pre-existing embeddings and merely
reported. -/
theorem c1_thm (enc : Doc → Option (List ℝ)) (st : DBState) (doc : Doc)
    (threshold : ℝ) (fn : Option String)
    (h : is_exact_duplicate st.invoices doc = none) :
    (process_invoice enc st doc true threshold fn).2.invoices = st.invoices ++ [doc] ∧
    (process_invoice enc st doc true threshold fn).1.inserted_id =
      some st.invoices.length ∧
    (process_invoice enc st doc true threshold fn).2.embeddings =
      st.embeddings ++
        [⟨some st.invoices.length, compute_embedding_for_doc enc doc, fn⟩] ∧
    (process_invoice enc st doc true threshold fn).1.fuzzy_matches =
      find_similar_embeddings (compute_embedding_for_doc enc doc) st.embeddings 5
        threshold := by
  unfold process_invoice
  rw [h]
  exact ⟨rfl, rfl, rfl, rfl⟩

/-- Witness for C1's amended statement on an empty store. -/
theorem c1_witness :
    (process_invoice encFail st0 docC1 true DEFAULT_THRESHOLD none).2.invoices =
      st0.invoices ++ [docC1] ∧
    (process_invoice encFail st0 docC1 true DEFAULT_THRESHOLD none).1.inserted_id =
      some st0.invoices.length ∧
    (process_invoice encFail st0 docC1 true DEFAULT_THRESHOLD none).2.embeddings =
      st0.embeddings ++
        [⟨some st0.invoices.length, compute_embedding_for_doc encFail docC1, none⟩] ∧
    (process_invoice encFail st0 docC1 true DEFAULT_THRESHOLD none).1.fuzzy_matches =
      find_similar_embeddings (compute_embedding_for_doc encFail docC1) st0.embeddings 5
        DEFAULT_THRESHOLD :=
  c1_thm encFail st0 docC1 DEFAULT_THRESHOLD none (by decide)

/-- Counterexample to C1 as stated: a run in which the fuzzy check finds a
match with similarity 1 ≥ threshold, and yet the record was inserted and
its embedding record stored — the pipeline did not stop before
persistence. -/
theorem c1_cex :
    (process_invoice encC1 stC1 docC1 true DEFAULT_THRESHOLD (some "new")).1.fuzzy_matches =
      [("prior", 1)] ∧
    DEFAULT_THRESHOLD ≤ (1 : ℝ) ∧
    (process_invoice encC1 stC1 docC1 true DEFAULT_THRESHOLD (some "new")).1.inserted_id =
      some 0 ∧
    (process_invoice encC1 stC1 docC1 true DEFAULT_THRESHOLD (some "new")).2.invoices =
      [docC1] ∧
    (process_invoice encC1 stC1 docC1 true DEFAULT_THRESHOLD (some "new")).2.embeddings.length = 2 := by
  have hex : is_exact_duplicate stC1.invoices docC1 = none := by
    show is_exact_duplicate [] docC1 = none
    decide
  have hdot : dotl [(1:ℝ), 0] [(1:ℝ), 0] = 1 := by
    rw [dotl_cons, dotl_cons, dotl_nil]
    norm_num
  have hn : norm2 [(1:ℝ), 0] = 1 := by
    unfold norm2
    rw [hdot, Real.sqrt_one]
  have hcos : cosine_similarity [(1:ℝ), 0] [(1:ℝ), 0] = some 1 := by
    unfold cosine_similarity
    rw [hn]
    rw [if_neg (by norm_num : ¬((1:ℝ) * 1 = 0)), if_pos rfl]
    rw [hdot]
    norm_num
  have hfs : find_similar_embeddings (compute_embedding_for_doc encC1 docC1)
      stC1.embeddings 5 DEFAULT_THRESHOLD = [("prior", 1)] := by
    show find_similar_embeddings [(1:ℝ), 0] [embPrior] 5 DEFAULT_THRESHOLD = _
    unfold find_similar_embeddings
    have hne : ¬(([(1:ℝ), 0] : List ℝ) = []) := by simp
    have hth : DEFAULT_THRESHOLD ≤ (1:ℝ) := by norm_num [DEFAULT_THRESHOLD]
    norm_num [List.filterMap_cons, embPrior, hcos, sortDesc, insertDesc, hne, hth]
  have h := c1_thm encC1 stC1 docC1 DEFAULT_THRESHOLD (some "new") hex
  refine ⟨?_, by norm_num [DEFAULT_THRESHOLD], ?_, ?_, ?_⟩
  · rw [h.2.2.2, hfs]
  · rw [h.2.1]
    rfl
  · rw [h.1]
    rfl
  · rw [h.2.2.1]
    rfl

/-- Claim C7 (code bug): when the encoder raises, `compute_embedding_for_doc`
returns `[]` without raising (as claimed), but because `[] is None` is
false the pipeline does NOT skip: it runs the fuzzy scan with the empty
vector (finding nothing, as every similarity is 0 < threshold) and still
stores an embedding record with an empty vector, contradicting the claim
that no embedding record is stored. -/
theorem c7_thm (st : DBState) (doc : Doc) (fn : Option String)
    (h : is_exact_duplicate st.invoices doc = none) :
    compute_embedding_for_doc encFail doc = [] ∧
    (process_invoice encFail st doc false DEFAULT_THRESHOLD fn).1.fuzzy_matches = [] ∧
    (process_invoice encFail st doc false DEFAULT_THRESHOLD fn).2.invoices =
      st.invoices ∧
    (process_invoice encFail st doc false DEFAULT_THRESHOLD fn).2.embeddings =
      st.embeddings ++ [⟨none, [], fn⟩] := by
  have hn : norm2 ([] : List ℝ) = 0 := by
    unfold norm2
    rw [dotl_nil]
    exact Real.sqrt_zero
  have hcos0 : ∀ v : List ℝ, cosine_similarity [] v = some 0 := by
    intro v
    unfold cosine_similarity
    rw [hn, zero_mul, if_pos rfl]
  have hfs : ∀ es : List EmbRecord,
      find_similar_embeddings [] es 5 DEFAULT_THRESHOLD = [] := by
    intro es
    unfold find_similar_embeddings
    have hnil : (es.filterMap fun d =>
        if d.embedding = [] then none
        else
          match cosine_similarity [] d.embedding with
          | none => none
          | some sim =>
              if DEFAULT_THRESHOLD ≤ sim then some (d.file_name.getD "None", sim)
              else none) = [] := by
      rw [List.filterMap_eq_nil]
      intro d _
      by_cases hde : d.embedding = []
      · rw [if_pos hde]
      · rw [if_neg hde, hcos0]
        norm_num [DEFAULT_THRESHOLD]
    rw [hnil]
    rfl
  refine ⟨rfl, ?_, ?_, ?_⟩
  · unfold process_invoice
    rw [h]
    exact hfs st.embeddings
  · unfold process_invoice
    rw [h]
    rfl
  · unfold process_invoice
    rw [h]
    rfl

/-- Witness for C7 with a nonempty embeddings collection. -/
theorem c7_witness :
    compute_embedding_for_doc encFail docC1 = [] ∧
    (process_invoice encFail st7 docC1 false DEFAULT_THRESHOLD (some "f.json")).1.fuzzy_matches = [] ∧
    (process_invoice encFail st7 docC1 false DEFAULT_THRESHOLD (some "f.json")).2.invoices =
      st7.invoices ∧
    (process_invoice encFail st7 docC1 false DEFAULT_THRESHOLD (some "f.json")).2.embeddings =
      st7.embeddings ++ [⟨none, [], some "f.json"⟩] :=
  c7_thm st7 docC1 (some "f.json") (by decide)

end InvoiceProof
